import Mathlib

/-!
Verification development for the connector integration layer of the
omniflow-ai repository.

The mock publisher and its contracts are embedded directly from
`packages/connectors/src/mockPublisher.ts` and
`packages/connectors/src/contracts.ts`.  The remaining connector-layer
components (token vault, OAuth state store, circuit breaker, connector
manager) are not present in the source tree — only their documentation
(`docs/connectors.md`) and web-UI callers are — so those components are
modelled from the specification, as marked on each definition.
-/

namespace Omniflow

/-- Channel union type from `contracts.ts`:
`"facebook" | "instagram" | "linkedin" | "google-business-profile"`. -/
inductive Channel
  | facebook
  | instagram
  | linkedin
  | googleBusinessProfile
  deriving DecidableEq, Repr

/-- String value of each channel literal, as it appears in the TypeScript
union type and is interpolated into the mock external id. -/
def Channel.str : Channel → String
  | .facebook => "facebook"
  | .instagram => "instagram"
  | .linkedin => "linkedin"
  | .googleBusinessProfile => "google-business-profile"

/-- PublishPayload from `contracts.ts`: orgId, channel, body. -/
structure PublishPayload where
  orgId : String
  channel : Channel
  body : String
  deriving DecidableEq, Repr

/-- Status union from `contracts.ts`: `"queued" | "published"`. -/
inductive PublishStatus
  | queued
  | published
  deriving DecidableEq, Repr

/-- PublishResult from `contracts.ts`: externalId and status. -/
structure PublishResult where
  externalId : String
  status : PublishStatus
  deriving DecidableEq, Repr

/-- MockPublisher.publish from `mockPublisher.ts`.  The TypeScript method
throws `Error("orgId is required")` when `!payload.orgId` (for a string
field this is truthy-falsy: it fires exactly on the empty string), and
otherwise returns `{ externalId: "mock-" + channel, status: "queued" }`.
The method reads no state outside its argument and writes none, so it is
embedded as a pure function; a thrown error becomes `Except.error`. -/
def MockPublisher.publish (payload : PublishPayload) : Except String PublishResult :=
  if payload.orgId = "" then
    .error "orgId is required"
  else
    .ok { externalId := "mock-" ++ payload.channel.str, status := .queued }

/-- Provider enum from the spec data model: gbp, meta, linkedin. -/
inductive Provider
  | gbp
  | meta
  | linkedin
  deriving DecidableEq, Repr

/-- Effective connector mode. -/
inductive Mode
  | mock
  | live
  deriving DecidableEq, Repr

/-- Modelled from the spec: organization settings consumed by mode
resolution (the connector-manager implementation is not in the source
tree).  `connector_mode` is the org-level string setting; `publishEnabled`
is the per-provider boolean flag map from `providers_enabled_json`. -/
structure OrgSettings where
  connector_mode : String
  publishEnabled : Provider → Bool

/-- Modelled from the spec: `resolveEffectiveMode(org, provider)` returns
live only if the org-level `connector_mode == "live"` AND the
provider-specific publish flag is enabled; otherwise mock. -/
def resolveEffectiveMode (org : OrgSettings) (provider : Provider) : Mode :=
  if org.connector_mode = "live" ∧ org.publishEnabled provider then .live else .mock

/-- Modelled from the spec: a publish attempt resolves the effective mode;
a live-ineligible live-mode attempt is recorded as an audited
`LIVE_BLOCKED` event, not a silent fallback.  `requested` is the mode the
caller is attempting; the second component is the list of audit events
emitted by mode resolution. -/
def attemptWithAudit (org : OrgSettings) (provider : Provider) (requested : Mode) :
    Mode × List String :=
  match resolveEffectiveMode org provider, requested with
  | .mock, .live => (.mock, ["LIVE_BLOCKED"])
  | eff, _ => (eff, [])

/-- Modelled from the spec: the token vault's authenticated-encryption
ciphertext.  The real scheme (symmetric AEAD keyed by a process-wide
secret) is not in the source tree; the authentication tag is idealized as
perfectly binding, so a ciphertext carries the id of the key that
produced it (the spec's key-id prefix for rotation) together with the
protected payload bytes. -/
structure Ciphertext where
  keyId : Nat
  payload : List Nat
  deriving DecidableEq, Repr

/-- Vault failures: `IntegrityError` on tamper or wrong key. -/
inductive VaultError
  | IntegrityError
  deriving DecidableEq, Repr

/-- Modelled from the spec: `TokenVault.encrypt` under the process key. -/
def TokenVault.encrypt (key : Nat) (x : List Nat) : Ciphertext :=
  { keyId := key, payload := x }

/-- Modelled from the spec: `TokenVault.decrypt` fails with
`IntegrityError` if the ciphertext was tampered with or encrypted under a
different key, and never crashes (it is a total function into `Except`). -/
def TokenVault.decrypt (key : Nat) (c : Ciphertext) : Except VaultError (List Nat) :=
  if c.keyId = key then .ok c.payload else .error .IntegrityError

/-- Modelled from the spec: record stored per OAuth state token. -/
structure OAuthStateRecord where
  orgId : String
  provider : Provider
  redirectUri : String
  createdAt : Nat
  expiresAt : Nat
  deriving DecidableEq, Repr

/-- Modelled from the spec: the OAuth state store maps opaque tokens to
records (a Redis keyspace with TTL in the deployed system). -/
def OAuthStateStore : Type := String → Option OAuthStateRecord

/-- Deletion of a token's record from the store. -/
def OAuthStateStore.erase (s : OAuthStateStore) (token : String) : OAuthStateStore :=
  fun t => if t = token then none else s t

/-- Modelled from the spec: `consume` atomically looks up and deletes the
record in one operation; expired tokens are treated as NotFound (`none`). -/
def OAuthStateStore.consume (now : Nat) (s : OAuthStateStore) (token : String) :
    Option OAuthStateRecord × OAuthStateStore :=
  match s token with
  | none => (none, s)
  | some r =>
      if now < r.expiresAt then (some r, OAuthStateStore.erase s token)
      else (none, OAuthStateStore.erase s token)

/-- Account status enum from the spec data model. -/
inductive AccountStatus
  | pending
  | active
  | revoked
  deriving DecidableEq, Repr

/-- Modelled from the spec: the ConnectorAccount fields relevant to
revocation (owner, provider, lifecycle status, encrypted credentials). -/
structure ConnectorAccount where
  orgId : String
  provider : Provider
  status : AccountStatus
  encryptedAccessToken : Option Ciphertext
  encryptedRefreshToken : Option Ciphertext
  deriving DecidableEq, Repr

/-- Modelled from the spec: `revoke(account)` sets status to revoked and
destroys stored credentials; it must succeed on an already-revoked
account (total function, no error path). -/
def revoke (a : ConnectorAccount) : ConnectorAccount :=
  { a with
    status := .revoked
    encryptedAccessToken := none
    encryptedRefreshToken := none }

/-- Error taxonomy categories from `docs/connectors.md` and the spec:
auth, rate_limit, validation, network, unknown. -/
inductive ErrorCategory
  | auth
  | rateLimit
  | validation
  | network
  | unknown
  deriving DecidableEq, Repr

/-- Modelled from the spec: only `network` and `unknown` count toward
breaker failures; `auth` and `validation` are caller/config errors and
must not trip the breaker (`rate_limit` is optional in the spec and not
counted here). -/
def ErrorCategory.qualifying : ErrorCategory → Bool
  | .network => true
  | .unknown => true
  | _ => false

/-- Breaker states: closed, open, half_open. -/
inductive BreakerState
  | closed
  | opened
  | halfOpen
  deriving DecidableEq, Repr

/-- Modelled from the spec: per-account breaker record.  `trialInFlight`
is the half-open single-trial slot, claimed under the per-account lock so
that transitions on one account are serialized. -/
structure Breaker where
  state : BreakerState
  consecutiveFailureCount : Nat
  openedAt : Nat
  trialInFlight : Bool
  deriving DecidableEq, Repr

/-- Configured failure threshold (spec example value). -/
def breakerThreshold : Nat := 5

/-- Configured cool-down interval in seconds (spec example value). -/
def breakerCooldown : Nat := 300

/-- Initial breaker: closed with a zero counter. -/
def Breaker.initial : Breaker :=
  { state := .closed, consecutiveFailureCount := 0, openedAt := 0, trialInFlight := false }

/-- Modelled from the spec: record a classified failure.  In closed state
each qualifying failure increments the counter and, on reaching the
threshold, transitions to open recording `opened_at`; non-qualifying
failures leave the breaker untouched.  In half-open a failure returns to
open, resetting `opened_at`.  In open the breaker is unchanged. -/
def Breaker.recordFailure (now : Nat) (b : Breaker) (c : ErrorCategory) : Breaker :=
  match b.state with
  | .closed =>
      if c.qualifying then
        if breakerThreshold ≤ b.consecutiveFailureCount + 1 then
          { b with
            state := .opened
            consecutiveFailureCount := b.consecutiveFailureCount + 1
            openedAt := now }
        else
          { b with consecutiveFailureCount := b.consecutiveFailureCount + 1 }
      else b
  | .halfOpen =>
      { b with state := .opened, openedAt := now, trialInFlight := false }
  | .opened => b

/-- Modelled from the spec: record a success.  Half-open success closes
the breaker and releases the trial slot; in any state the counter resets
to zero. -/
def Breaker.recordSuccess (b : Breaker) : Breaker :=
  match b.state with
  | .halfOpen =>
      { b with state := .closed, consecutiveFailureCount := 0, trialInFlight := false }
  | _ => { b with consecutiveFailureCount := 0 }

/-- Folding a list of classified failures into the breaker. -/
def Breaker.applyFailures (now : Nat) (b : Breaker) (cs : List ErrorCategory) : Breaker :=
  cs.foldl (fun acc c => Breaker.recordFailure now acc c) b

/-- Modelled from the spec: eligibility check performed under the
per-account lock before a live call.  Closed permits the call; open
blocks until the cool-down elapses, then transitions to half-open and
claims the single trial slot; half-open permits only when the trial slot
is free, claiming it atomically. -/
def Breaker.checkEligibility (now : Nat) (b : Breaker) : Bool × Breaker :=
  match b.state with
  | .closed => (true, b)
  | .opened =>
      if b.openedAt + breakerCooldown ≤ now then
        (true, { b with state := .halfOpen, trialInFlight := true })
      else (false, b)
  | .halfOpen =>
      if b.trialInFlight then (false, b)
      else (true, { b with trialInFlight := true })

/-- Health fields the manager updates on live failures. -/
structure ConnectorHealth where
  reauthRequired : Bool
  lastErrorCategory : Option ErrorCategory
  deriving DecidableEq, Repr

/-- Audit outcome recorded for each publish attempt. -/
inductive Outcome
  | success
  | blocked
  | failed
  deriving DecidableEq, Repr

/-- Typed result of a manager publish operation. -/
inductive ManagerResult
  | Blocked
  | Success (externalId : String)
  | Failed (category : ErrorCategory)
  deriving DecidableEq, Repr

/-- Per-account state the manager serializes on: breaker plus health. -/
structure AccountState where
  breaker : Breaker
  health : ConnectorHealth
  deriving DecidableEq, Repr

/-- Modelled from the spec: one serialized live publish attempt on an
account.  `adapterResult` is the outcome the provider adapter would
return if it were invoked.  Returns the manager result, the updated
account state, whether the provider adapter was actually invoked, and
the audit outcome recorded for the attempt.  When the breaker check
refuses eligibility the manager short-circuits: result `Blocked`, audit
`outcome=blocked`, adapter not invoked.  Auth-category failures set
`reauth_required` on the health record. -/
def livePublishAttempt (now : Nat) (adapterResult : Except ErrorCategory String)
    (s : AccountState) : ManagerResult × AccountState × Bool × Outcome :=
  match Breaker.checkEligibility now s.breaker with
  | (false, b1) => (.Blocked, { s with breaker := b1 }, false, .blocked)
  | (true, b1) =>
      match adapterResult with
      | .ok eid =>
          (.Success eid, { breaker := b1.recordSuccess, health := s.health }, true, .success)
      | .error c =>
          (.Failed c,
           { breaker := Breaker.recordFailure now b1 c,
             health :=
               { reauthRequired := if c = .auth then true else s.health.reauthRequired,
                 lastErrorCategory := some c } },
           true, .failed)

end Omniflow

namespace Omniflow

/-- C1: MockPublisher.publish on orgId "org_123" and channel "linkedin"
returns `{externalId := "mock-linkedin", status := queued}` for every body.
The embedding is a pure function of the payload alone (the source method
touches no breaker or health state), so equality of the result for every
call with this tenant/channel input expresses both determinism and the
absence of breaker/health side effects. -/
theorem C1_mock_publish_org123_linkedin (body : String) :
    MockPublisher.publish { orgId := "org_123", channel := .linkedin, body := body }
      = .ok { externalId := "mock-linkedin", status := .queued } := by
  rfl

/-- C9: MockPublisher.publish throws `Error("orgId is required")` exactly
when the payload's orgId is the empty string, and never throws otherwise. -/
theorem C9_mock_publish_error_iff_empty_orgId (p : PublishPayload) :
    (p.orgId = "" → MockPublisher.publish p = .error "orgId is required") ∧
    (p.orgId ≠ "" →
      MockPublisher.publish p
        = .ok { externalId := "mock-" ++ p.channel.str, status := .queued }) := by
  constructor
  · intro h
    simp [MockPublisher.publish, h]
  · intro h
    simp [MockPublisher.publish, h]

/-- Witness for C9 at concrete payloads: the empty orgId throws, a
non-empty orgId returns the queued mock result. -/
theorem C9_mock_publish_error_iff_empty_orgId_witness :
    MockPublisher.publish { orgId := "", channel := .linkedin, body := "hello" }
      = .error "orgId is required" ∧
    MockPublisher.publish { orgId := "org_123", channel := .linkedin, body := "hello" }
      = .ok { externalId := "mock-linkedin", status := .queued } :=
  ⟨(C9_mock_publish_error_iff_empty_orgId _).1 rfl,
   (C9_mock_publish_error_iff_empty_orgId _).2 (by decide)⟩

/-- C10: for non-empty orgId the mock result is exactly
`{externalId := "mock-" ++ channel, status := queued}`; two payloads that
agree on channel (but may differ in orgId and body) give identical
results; and the `published` status admitted by the PublishResult type is
never produced. -/
theorem C10_mock_publish_depends_only_on_channel
    (p q : PublishPayload) (hp : p.orgId ≠ "") (hq : q.orgId ≠ "")
    (hc : p.channel = q.channel) :
    MockPublisher.publish p
      = .ok { externalId := "mock-" ++ p.channel.str, status := .queued } ∧
    MockPublisher.publish p = MockPublisher.publish q ∧
    (∀ r : PublishResult, MockPublisher.publish p = .ok r → r.status = .queued) := by
  refine ⟨by simp [MockPublisher.publish, hp], ?_, ?_⟩
  · simp [MockPublisher.publish, hp, hq, hc]
  · intro r hr
    simp [MockPublisher.publish, hp] at hr
    simp [← hr]

/-- Witness for C10: two concrete payloads sharing the channel but
differing in orgId and body produce the same queued result. -/
theorem C10_mock_publish_depends_only_on_channel_witness :
    MockPublisher.publish { orgId := "org_123", channel := .linkedin, body := "hello" }
      = .ok { externalId := "mock-linkedin", status := .queued } ∧
    MockPublisher.publish { orgId := "org_123", channel := .linkedin, body := "hello" }
      = MockPublisher.publish { orgId := "org_999", channel := .linkedin, body := "bye" } :=
  ⟨(C10_mock_publish_depends_only_on_channel
      { orgId := "org_123", channel := .linkedin, body := "hello" }
      { orgId := "org_999", channel := .linkedin, body := "bye" }
      (by decide) (by decide) rfl).1,
   (C10_mock_publish_depends_only_on_channel
      { orgId := "org_123", channel := .linkedin, body := "hello" }
      { orgId := "org_999", channel := .linkedin, body := "bye" }
      (by decide) (by decide) rfl).2.1⟩

end Omniflow

namespace Omniflow

/-- C5: resolveEffectiveMode returns mock whenever the org's
connector_mode is not "live" or the provider's flag is false; returns
live only when both conditions hold; and a live-mode attempt that
resolves to mock emits an audited LIVE_BLOCKED event. -/
theorem C5_resolveEffectiveMode_live_requires_both (org : OrgSettings) (provider : Provider) :
    ((org.connector_mode ≠ "live" ∨ org.publishEnabled provider = false) →
       resolveEffectiveMode org provider = .mock) ∧
    (resolveEffectiveMode org provider = .live ↔
       org.connector_mode = "live" ∧ org.publishEnabled provider = true) ∧
    (resolveEffectiveMode org provider = .mock →
       attemptWithAudit org provider .live = (.mock, ["LIVE_BLOCKED"])) := by
  by_cases h : org.connector_mode = "live" ∧ org.publishEnabled provider = true
  · have he : resolveEffectiveMode org provider = .live := by
      simp [resolveEffectiveMode, h.1, h.2]
    refine ⟨?_, ?_, ?_⟩
    · rintro (hm | hf)
      · exact absurd h.1 hm
      · rw [h.2] at hf; cases hf
    · simp [he, h.1, h.2]
    · intro hm; rw [he] at hm; cases hm
  · have he : resolveEffectiveMode org provider = .mock := by
      simp only [resolveEffectiveMode, if_neg h]
    refine ⟨fun _ => he, ?_, ?_⟩
    · rw [he]
      constructor
      · intro hc; cases hc
      · intro hc; exact absurd hc h
    · intro _
      simp only [attemptWithAudit, he]

/-- Witness for C5: with connector_mode "mock" and all flags enabled the
effective mode is mock and a live attempt records LIVE_BLOCKED. -/
theorem C5_resolveEffectiveMode_live_requires_both_witness :
    resolveEffectiveMode ⟨"mock", fun _ => true⟩ .gbp = .mock ∧
    attemptWithAudit ⟨"mock", fun _ => true⟩ .gbp .live = (.mock, ["LIVE_BLOCKED"]) := by
  have h := C5_resolveEffectiveMode_live_requires_both ⟨"mock", fun _ => true⟩ .gbp
  have hm := h.1 (Or.inl (by decide))
  exact ⟨hm, h.2.2 hm⟩

/-- C7: revoke is idempotent: revoking twice equals revoking once, the
resulting status is revoked, and revoke is a total function with no
error path (so a second revoke always succeeds without raising). -/
theorem C7_revoke_idempotent (a : ConnectorAccount) :
    revoke (revoke a) = revoke a ∧ (revoke a).status = .revoked :=
  ⟨rfl, rfl⟩

/-- C4: vault round-trip law, integrity on foreign ciphertexts, and no
silently wrong plaintext: decrypt succeeds only on ciphertexts that
encrypt would have produced for the returned plaintext under that key. -/
theorem C4_vault_roundtrip_integrity :
    (∀ (key : Nat) (x : List Nat),
       TokenVault.decrypt key (TokenVault.encrypt key x) = .ok x) ∧
    (∀ (key : Nat) (c : Ciphertext), (∀ x, c ≠ TokenVault.encrypt key x) →
       TokenVault.decrypt key c = .error .IntegrityError) ∧
    (∀ (key : Nat) (c : Ciphertext) (y : List Nat),
       TokenVault.decrypt key c = .ok y → c = TokenVault.encrypt key y) := by
  refine ⟨fun key x => by simp [TokenVault.encrypt, TokenVault.decrypt], ?_, ?_⟩
  · intro key c h
    unfold TokenVault.decrypt
    rw [if_neg]
    intro hk
    exact h c.payload (by cases c; simp_all [TokenVault.encrypt])
  · intro key c y h
    unfold TokenVault.decrypt at h
    by_cases hk : c.keyId = key
    · rw [if_pos hk] at h
      cases c
      simp_all [TokenVault.encrypt]
    · rw [if_neg hk] at h
      exact absurd h (by simp)

/-- Witness for C4: a concrete round trip under key 7, and an
IntegrityError for a ciphertext carrying a different key id. -/
theorem C4_vault_roundtrip_integrity_witness :
    TokenVault.decrypt 7 (TokenVault.encrypt 7 [1, 2, 3]) = .ok [1, 2, 3] ∧
    TokenVault.decrypt 0 ⟨1, []⟩ = .error .IntegrityError :=
  ⟨C4_vault_roundtrip_integrity.1 7 [1, 2, 3],
   C4_vault_roundtrip_integrity.2.1 0 ⟨1, []⟩
     (fun x h => by simp [TokenVault.encrypt, Ciphertext.mk.injEq] at h)⟩

/-- Rewriting lemma for consume when the token is present in the store. -/
theorem OAuthStateStore.consume_of_some (now : Nat) (s : OAuthStateStore) (token : String)
    (rec : OAuthStateRecord) (hs : s token = some rec) :
    OAuthStateStore.consume now s token =
      if now < rec.expiresAt then (some rec, OAuthStateStore.erase s token)
      else (none, OAuthStateStore.erase s token) := by
  unfold OAuthStateStore.consume
  rw [hs]

/-- Rewriting lemma for consume when the token is absent from the store. -/
theorem OAuthStateStore.consume_of_none (now : Nat) (s : OAuthStateStore) (token : String)
    (hs : s token = none) :
    OAuthStateStore.consume now s token = (none, s) := by
  unfold OAuthStateStore.consume
  rw [hs]

/-- C3: each OAuth state token is consumable at most once — after a
successful consume, a second consume of the same token returns NotFound
(none) — and consuming a token past its TTL expiry returns NotFound. -/
theorem C3_oauth_state_single_use (now now2 : Nat) (s : OAuthStateStore) (token : String) :
    (∀ (r : OAuthStateRecord) (s1 : OAuthStateStore),
       OAuthStateStore.consume now s token = (some r, s1) →
       (OAuthStateStore.consume now2 s1 token).1 = none) ∧
    (∀ r : OAuthStateRecord, s token = some r → r.expiresAt ≤ now →
       (OAuthStateStore.consume now s token).1 = none) := by
  constructor
  · intro r s1 h
    cases hs : s token with
    | none =>
        rw [OAuthStateStore.consume_of_none now s token hs] at h
        exact absurd (congrArg Prod.fst h) (by simp)
    | some rec =>
        rw [OAuthStateStore.consume_of_some now s token rec hs] at h
        split_ifs at h with ht
        · have hs1 : OAuthStateStore.erase s token = s1 := congrArg Prod.snd h
          rw [← hs1]
          rw [OAuthStateStore.consume_of_none now2 (OAuthStateStore.erase s token) token
              (by simp [OAuthStateStore.erase])]
        · exact absurd (congrArg Prod.fst h) (by simp)
  · intro r hr hexp
    rw [OAuthStateStore.consume_of_some now s token r hr, if_neg (Nat.not_lt.mpr hexp)]

/-- Sample OAuth state record for concrete evaluation. -/
def sampleRecord : OAuthStateRecord :=
  { orgId := "org_123", provider := .gbp, redirectUri := "https://app.example/cb",
    createdAt := 0, expiresAt := 100 }

/-- Sample single-token store for concrete evaluation. -/
def sampleStore : OAuthStateStore :=
  fun t => if t = "tok" then some sampleRecord else none

/-- Witness for C3: consuming "tok" once deletes it so a second consume
returns none, and consuming it past expiry (at time 200) returns none. -/
theorem C3_oauth_state_single_use_witness :
    (OAuthStateStore.consume 7 (OAuthStateStore.erase sampleStore "tok") "tok").1 = none ∧
    (OAuthStateStore.consume 200 sampleStore "tok").1 = none :=
  ⟨(C3_oauth_state_single_use 5 7 sampleStore "tok").1 sampleRecord
     (OAuthStateStore.erase sampleStore "tok") rfl,
   (C3_oauth_state_single_use 200 0 sampleStore "tok").2 sampleRecord rfl (by decide)⟩

end Omniflow

namespace Omniflow

/-- Recording a failure on an open breaker changes nothing. -/
theorem Breaker.recordFailure_opened (now : Nat) (b : Breaker) (c : ErrorCategory)
    (h : b.state = .opened) : Breaker.recordFailure now b c = b := by
  obtain ⟨st, cnt, oa, tf⟩ := b
  have h2 : st = BreakerState.opened := h
  subst h2
  rfl

/-- Folding failures over an open breaker changes nothing. -/
theorem Breaker.applyFailures_opened (now : Nat) (cs : List ErrorCategory) :
    ∀ b : Breaker, b.state = .opened → Breaker.applyFailures now b cs = b := by
  induction cs with
  | nil => intro b _; rfl
  | cons c cs ih =>
      intro b h
      have hstep : Breaker.applyFailures now b (c :: cs)
          = Breaker.applyFailures now (Breaker.recordFailure now b c) cs := rfl
      rw [hstep, Breaker.recordFailure_opened now b c h]
      exact ih b h

/-- From a closed breaker whose counter is below the threshold, a run of
qualifying failures that brings the counter exactly to the threshold
leaves the breaker open. -/
theorem Breaker.applyFailures_reaches_threshold (now : Nat) :
    ∀ (cs : List ErrorCategory) (b : Breaker), b.state = .closed →
      cs.all ErrorCategory.qualifying = true →
      b.consecutiveFailureCount + cs.length = breakerThreshold →
      b.consecutiveFailureCount < breakerThreshold →
      (Breaker.applyFailures now b cs).state = .opened := by
  intro cs
  induction cs with
  | nil =>
      intro b _ _ hlen hlt
      simp at hlen
      exact absurd hlen (by omega)
  | cons c cs ih =>
      intro b hb hq hlen hlt
      simp only [List.all_cons, Bool.and_eq_true] at hq
      obtain ⟨hqc, hqcs⟩ := hq
      obtain ⟨st, cnt, oa, tf⟩ := b
      have h2 : st = BreakerState.closed := hb
      subst h2
      simp only [List.length_cons] at hlen
      have hlen2 : cnt + (cs.length + 1) = breakerThreshold := hlen
      have hlt2 : cnt < breakerThreshold := hlt
      have hstep : Breaker.applyFailures now ⟨.closed, cnt, oa, tf⟩ (c :: cs)
          = Breaker.applyFailures now
              (Breaker.recordFailure now ⟨.closed, cnt, oa, tf⟩ c) cs := rfl
      rw [hstep]
      by_cases hth : breakerThreshold ≤ cnt + 1
      · have hrf : Breaker.recordFailure now ⟨.closed, cnt, oa, tf⟩ c
            = ⟨.opened, cnt + 1, now, tf⟩ := by
          simp [Breaker.recordFailure, hqc, hth]
        rw [hrf, Breaker.applyFailures_opened now cs ⟨.opened, cnt + 1, now, tf⟩ rfl]
      · have hrf : Breaker.recordFailure now ⟨.closed, cnt, oa, tf⟩ c
            = ⟨.closed, cnt + 1, oa, tf⟩ := by
          simp [Breaker.recordFailure, hqc, hth]
        rw [hrf]
        exact ih ⟨.closed, cnt + 1, oa, tf⟩ rfl hqcs
          (show cnt + 1 + cs.length = breakerThreshold by omega)
          (show cnt + 1 < breakerThreshold by omega)

/-- C2: starting from a closed breaker with a zero counter, a run of
exactly threshold-many qualifying failures leaves the breaker open; and
while the breaker is open (cool-down not yet elapsed) a publish attempt
returns Blocked, records outcome blocked, and does not invoke the
provider adapter (the invoked flag is false and the state is unchanged). -/
theorem C2_breaker_threshold_then_open_blocks
    (now now2 : Nat) (b : Breaker) (cs : List ErrorCategory)
    (s : AccountState) (r : Except ErrorCategory String)
    (hb : b.state = .closed) (hc : b.consecutiveFailureCount = 0)
    (hq : cs.all ErrorCategory.qualifying = true) (hlen : cs.length = breakerThreshold)
    (hs : s.breaker.state = .opened)
    (hcool : now2 < s.breaker.openedAt + breakerCooldown) :
    (Breaker.applyFailures now b cs).state = .opened ∧
    livePublishAttempt now2 r s = (.Blocked, s, false, .blocked) := by
  constructor
  · exact Breaker.applyFailures_reaches_threshold now cs b hb hq (by omega)
      (by rw [hc]; decide)
  · obtain ⟨⟨st, cnt, oa, tf⟩, hh⟩ := s
    have h2 : st = BreakerState.opened := hs
    subst h2
    have hlt : ¬(oa + breakerCooldown ≤ now2) := Nat.not_le.mpr hcool
    simp only [livePublishAttempt, Breaker.checkEligibility, if_neg hlt]

/-- Witness for C2: five network failures open the initial breaker, and a
publish attempt at time 10 on an account opened at time 0 is blocked
without invoking the adapter. -/
theorem C2_breaker_threshold_then_open_blocks_witness :
    (Breaker.applyFailures 0 Breaker.initial
      [.network, .network, .network, .network, .network]).state = .opened ∧
    livePublishAttempt 10 (.ok "x")
        ⟨⟨.opened, 5, 0, false⟩, ⟨false, none⟩⟩
      = (.Blocked, ⟨⟨.opened, 5, 0, false⟩, ⟨false, none⟩⟩, false, .blocked) :=
  C2_breaker_threshold_then_open_blocks 0 10 Breaker.initial
    [.network, .network, .network, .network, .network]
    ⟨⟨.opened, 5, 0, false⟩, ⟨false, none⟩⟩ (.ok "x")
    rfl rfl (by decide) (by decide) rfl (by decide)

/-- C6: on a live-call failure with the breaker closed, auth and
validation categories leave the consecutive failure counter unchanged and
the breaker still closed (they never trip it); an auth failure sets
reauth_required on the health record; network and unknown categories
increment the counter. -/
theorem C6_auth_validation_never_trip
    (now : Nat) (s : AccountState) (c : ErrorCategory)
    (res : ManagerResult) (s2 : AccountState) (inv : Bool) (o : Outcome)
    (hb : s.breaker.state = .closed)
    (h : livePublishAttempt now (.error c) s = (res, s2, inv, o)) :
    ((c = .auth ∨ c = .validation) →
       s2.breaker.consecutiveFailureCount = s.breaker.consecutiveFailureCount ∧
       s2.breaker.state = .closed) ∧
    (c = .auth → s2.health.reauthRequired = true) ∧
    ((c = .network ∨ c = .unknown) →
       s2.breaker.consecutiveFailureCount = s.breaker.consecutiveFailureCount + 1) := by
  obtain ⟨⟨st, cnt, oa, tf⟩, hh⟩ := s
  have h2 : st = BreakerState.closed := hb
  subst h2
  simp only [livePublishAttempt, Breaker.checkEligibility, Prod.mk.injEq] at h
  obtain ⟨-, hs2, -, -⟩ := h
  subst hs2
  refine ⟨?_, ?_, ?_⟩
  · rintro (rfl | rfl) <;>
      exact ⟨by simp [Breaker.recordFailure, ErrorCategory.qualifying],
             by simp [Breaker.recordFailure, ErrorCategory.qualifying]⟩
  · rintro rfl
    simp
  · rintro (rfl | rfl) <;>
      · simp only [Breaker.recordFailure, ErrorCategory.qualifying, if_true]
        split_ifs <;> rfl

/-- Witness for C6: with a closed breaker at count 1, an auth failure
leaves the count at 1, keeps the breaker closed, and sets
reauth_required; a network failure raises the count to 2. -/
theorem C6_auth_validation_never_trip_witness :
    (⟨⟨.closed, 1, 0, false⟩, ⟨true, some .auth⟩⟩ : AccountState).breaker.consecutiveFailureCount
        = 1 ∧
    (⟨⟨.closed, 1, 0, false⟩, ⟨true, some .auth⟩⟩ : AccountState).breaker.state = .closed ∧
    (⟨⟨.closed, 1, 0, false⟩, ⟨true, some .auth⟩⟩ : AccountState).health.reauthRequired = true ∧
    (⟨⟨.closed, 2, 0, false⟩, ⟨false, some .network⟩⟩ : AccountState).breaker.consecutiveFailureCount
        = 2 := by
  have hA := C6_auth_validation_never_trip 0 ⟨⟨.closed, 1, 0, false⟩, ⟨false, none⟩⟩ .auth
    (.Failed .auth) ⟨⟨.closed, 1, 0, false⟩, ⟨true, some .auth⟩⟩ true .failed rfl (by decide)
  have hN := C6_auth_validation_never_trip 0 ⟨⟨.closed, 1, 0, false⟩, ⟨false, none⟩⟩ .network
    (.Failed .network) ⟨⟨.closed, 2, 0, false⟩, ⟨false, some .network⟩⟩ true .failed rfl
    (by decide)
  exact ⟨(hA.1 (Or.inl rfl)).1, (hA.1 (Or.inl rfl)).2, hA.2.1 rfl, hN.2.2 (Or.inl rfl)⟩

/-- C8: while the breaker is half-open with the trial slot free, the
eligibility check admits the caller and claims the slot; a second publish
attempt on the resulting account state, made before the trial result is
recorded, is blocked and never reaches the provider adapter. -/
theorem C8_half_open_single_trial
    (now now2 : Nat) (s : AccountState) (r : Except ErrorCategory String)
    (ok1 : Bool) (b1 : Breaker)
    (h1 : s.breaker.state = .halfOpen) (h2 : s.breaker.trialInFlight = false)
    (heq : Breaker.checkEligibility now s.breaker = (ok1, b1)) :
    ok1 = true ∧ b1.trialInFlight = true ∧
    livePublishAttempt now2 r { s with breaker := b1 }
      = (.Blocked, { s with breaker := b1 }, false, .blocked) := by
  obtain ⟨⟨st, cnt, oa, tf⟩, hh⟩ := s
  have e1 : st = BreakerState.halfOpen := h1
  subst e1
  have e2 : tf = false := h2
  subst e2
  simp only [Breaker.checkEligibility, Bool.false_eq_true, if_false, Prod.mk.injEq] at heq
  obtain ⟨hok, hb1⟩ := heq
  subst hok
  subst hb1
  refine ⟨rfl, rfl, ?_⟩
  simp only [livePublishAttempt, Breaker.checkEligibility, if_true]

/-- Witness for C8: a half-open breaker with a free slot admits the first
caller claiming the slot, and a second attempt at time 6 is blocked. -/
theorem C8_half_open_single_trial_witness :
    (true : Bool) = true ∧
    (⟨.halfOpen, 0, 0, true⟩ : Breaker).trialInFlight = true ∧
    livePublishAttempt 6 (.ok "x")
        ⟨⟨.halfOpen, 0, 0, true⟩, ⟨false, none⟩⟩
      = (.Blocked, ⟨⟨.halfOpen, 0, 0, true⟩, ⟨false, none⟩⟩, false, .blocked) :=
  C8_half_open_single_trial 5 6 ⟨⟨.halfOpen, 0, 0, false⟩, ⟨false, none⟩⟩ (.ok "x")
    true ⟨.halfOpen, 0, 0, true⟩ rfl rfl (by decide)

end Omniflow
